import Mathlib

/-!
Verification development for the telemetry bridge server (`Server.py`).

The server keeps a global dictionary `latest_data` mapping field names to
JSON values, accepts a single device TCP connection at a time in
`tcp_server_thread`, merges each received JSON object into `latest_data`
(`latest_data.update(received_json)` followed by a status assignment and a
`socketio.emit` broadcast), and exposes a `/send_command` HTTP handler that
serializes `\x7b"cmd": "config", "rate": ..., "cycles": ...\x7d` to the
device socket.

This file shallowly embeds that code: JSON values are `JValue` (numbers as
rationals; Python floats and ints are conflated), the store is a function
`String → Option JValue`, and the thread's accept/receive loop is a pure
function from a finite list of environment events (accepted sessions and
the outcomes of each `recv` call) to the final state plus an event trace
recording every store mutation, broadcast, log line, and connection
action.
-/

/-- A JSON value as produced by `json.loads`.  Numbers are modelled as
rationals, conflating Python's `int` and `float` results. -/
inductive JValue where
  | null
  | bool (b : Bool)
  | num (q : Rat)
  | str (s : String)
  | arr (elems : List JValue)
  | obj (fields : List (String × JValue))

/-- The type of the global `latest_data` dictionary: a finite string-keyed
mapping, embedded as a lookup function (absent keys map to `none`). -/
def Store : Type := String → Option JValue

/-- Initial `latest_data` (Server.py lines 18-24).  The three float fields
`0.0` and the int field `0` are all the rational `0`. -/
def statusWaiting : String := "等待设备连接..."

def initial_latest_data : Store := fun k =>
  if k = "DC" then some (.num 0)
  else if k = "Amp" then some (.num 0)
  else if k = "Freq" then some (.num 0)
  else if k = "time" then some (.num 0)
  else if k = "status" then some (.str statusWaiting)
  else none

def statusReceiving : String := "数据正常接收"

def statusConnected (ip : String) : String := "设备已连接: " ++ ip

def statusDisconnected : String := "设备已断开连接"

def statusBindFail (reason : String) : String := "启动失败: " ++ reason

/-- Python `dict.update` with a list of key/value pairs: pairs are applied
left to right, later pairs overwriting earlier ones (exactly the insertion
order behaviour of `latest_data.update(received_json)` on a decoded JSON
object). -/
def dictUpdate (d : Store) (pairs : List (String × JValue)) : Store :=
  pairs.foldl (fun acc kv => fun k => if k = kv.1 then some kv.2 else acc k) d

/-- `latest_data["status"] = s` (Server.py lines 39, 43, 51, 73, 90). -/
def setStatus (d : Store) (s : String) : Store :=
  fun k => if k = "status" then some (.str s) else d k

/-- One successful frame merge (Server.py lines 72-73):
`latest_data.update(received_json)` then `latest_data["status"] = "数据正常接收"`. -/
def mergeFrame (d : Store) (frame : List (String × JValue)) : Store :=
  setStatus (dictUpdate d frame) statusReceiving

/-- The value a frame assigns to key `k` (its last binding of `k`), or
`none` when the frame does not mention `k`. -/
def frameVal (frame : List (String × JValue)) (k : String) : Option JValue :=
  dictUpdate (fun _ => none) frame k

/-- One step of scanning a frame sequence for the latest value of `k`. -/
def lastSentStep (k : String) (acc : Option JValue)
    (f : List (String × JValue)) : Option JValue :=
  match frameVal f k with
  | some v => some v
  | none => acc

/-- The value held by `k` in the most recent frame of the sequence that
mentions `k`; `none` when no frame ever sent `k`. -/
def lastSent (frames : List (List (String × JValue))) (k : String) : Option JValue :=
  frames.foldl (lastSentStep k) none

theorem dictUpdate_lookup (frame : List (String × JValue)) (d : Store) (k : String) :
    dictUpdate d frame k = match frameVal frame k with
      | some v => some v
      | none => d k := by
  induction frame generalizing d with
  | nil => simp [dictUpdate, frameVal]
  | cons kv rest ih =>
    have hstep : dictUpdate d (kv :: rest) k =
        dictUpdate (fun k2 => if k2 = kv.1 then some kv.2 else d k2) rest k := rfl
    rw [hstep, ih]
    have hfv : frameVal (kv :: rest) k =
        match frameVal rest k with
        | some v => some v
        | none => if k = kv.1 then some kv.2 else none := by
      have h2 : frameVal (kv :: rest) k =
          dictUpdate (fun k2 => if k2 = kv.1 then some kv.2 else none) rest k := rfl
      rw [h2, ih]
    rw [hfv]
    cases frameVal rest k with
    | some v => rfl
    | none => by_cases h : k = kv.1 <;> simp [h]

theorem lastSent_foldl (frames : List (List (String × JValue))) (k : String)
    (acc : Option JValue) :
    frames.foldl (lastSentStep k) acc =
    match lastSent frames k with
      | some v => some v
      | none => acc := by
  induction frames generalizing acc with
  | nil => cases acc <;> rfl
  | cons f rest ih =>
    rw [List.foldl_cons, ih]
    have hcons : lastSent (f :: rest) k = List.foldl (lastSentStep k) (lastSentStep k none f) rest := by
      rfl
    rw [hcons, ih]
    unfold lastSentStep
    cases frameVal f k <;> cases lastSent rest k <;> rfl

theorem lastSent_cons (f : List (String × JValue))
    (rest : List (List (String × JValue))) (k : String) :
    lastSent (f :: rest) k = match lastSent rest k with
      | some v => some v
      | none => frameVal f k := by
  have hcons : lastSent (f :: rest) k =
      List.foldl (lastSentStep k) (lastSentStep k none f) rest := rfl
  rw [hcons, lastSent_foldl]
  unfold lastSentStep
  cases frameVal f k <;> cases lastSent rest k <;> rfl

/-- C1: For every sequence of successfully parsed device frames merged into
the store, each non-status key holds the value from the most recent frame
that contained it (so the store contains the union of all keys ever sent),
and keys no frame mentioned are unchanged from the prior store.  The
`"status"` key is excluded because it is the status enumeration, not a
telemetry field: the code overwrites it to `"数据正常接收"` after every merge. -/
theorem c1_merge_last_writer_wins (frames : List (List (String × JValue)))
    (d : Store) (k : String) (hk : k ≠ "status") :
    frames.foldl mergeFrame d k = match lastSent frames k with
      | some v => some v
      | none => d k := by
  induction frames generalizing d with
  | nil => rfl
  | cons f rest ih =>
    rw [List.foldl_cons, ih]
    have hmf : mergeFrame d f k = match frameVal f k with
        | some v => some v
        | none => d k := by
      unfold mergeFrame setStatus
      rw [if_neg hk, dictUpdate_lookup]
    rw [lastSent_cons, hmf]
    cases lastSent rest k with
    | some v => rfl
    | none => cases frameVal f k <;> rfl

/-- Witness for `c1_merge_last_writer_wins` at a concrete input: merging the
single frame `{"DC": 3}` into the initial store leaves `"DC"` holding `3`. -/
theorem c1_merge_last_writer_wins_witness :
    ("DC" ≠ "status") ∧
    List.foldl mergeFrame initial_latest_data [[("DC", JValue.num 3)]] "DC" =
      some (JValue.num 3) := by
  refine ⟨by decide, ?_⟩
  exact (c1_merge_last_writer_wins [[("DC", JValue.num 3)]] initial_latest_data "DC"
    (by decide)).trans rfl

/-! ### Frame Parser: embedding of `json.loads` (Server.py line 69)

A recursive-descent parser for the JSON subset the device protocol uses:
objects, arrays, double-quoted strings without escape sequences, integer
and decimal-fraction numbers without exponents, `true`, `false`, `null`.
Recursion is bounded by explicit fuel; `json_loads` supplies enough fuel
for any input of the given length. -/

def lbrace : Char := Char.ofNat 123

def rbrace : Char := Char.ofNat 125

def isWs (c : Char) : Bool := c = ' ' || c = '\t' || c = '\n' || c = '\r'

def skipWs : List Char → List Char
  | [] => []
  | c :: cs => if isWs c then skipWs cs else c :: cs

/-- Python `str.strip()` on the whitespace characters above. -/
def pyStrip (s : String) : String :=
  String.mk ((skipWs (skipWs s.toList).reverse).reverse)

def digitsVal (ds : List Char) : Nat :=
  ds.foldl (fun n c => 10 * n + (c.toNat - 48)) 0

def parseNat (cs : List Char) : Option (Nat × Nat × List Char) :=
  let ds := cs.takeWhile Char.isDigit
  if ds = [] then none
  else some (digitsVal ds, ds.length, cs.dropWhile Char.isDigit)

def parseNumPos (cs : List Char) : Option (Rat × List Char) :=
  match parseNat cs with
  | none => none
  | some (n, _, rest) =>
    match rest with
    | '.' :: rest2 =>
      match parseNat rest2 with
      | none => none
      | some (m, len, rest3) =>
        some ((n : Rat) + (m : Rat) / ((10 : Rat) ^ len), rest3)
    | _ => some ((n : Rat), rest)

def parseNumber (cs : List Char) : Option (Rat × List Char) :=
  match cs with
  | '-' :: rest =>
    match parseNumPos rest with
    | some (q, r) => some (-q, r)
    | none => none
  | _ => parseNumPos cs

/-- Scan a JSON string body up to the closing quote (no escapes). -/
def parseStrBody : List Char → Option (List Char × List Char)
  | [] => none
  | c :: rest =>
    if c = '\"' then some ([], rest)
    else match parseStrBody rest with
      | some (s, r) => some (c :: s, r)
      | none => none

mutual

def parseV : Nat → List Char → Option (JValue × List Char)
  | 0, _ => none
  | f + 1, cs0 =>
    match skipWs cs0 with
    | [] => none
    | c :: rest =>
      if c = lbrace then parseObjTail f rest
      else if c = '[' then parseArrTail f rest
      else if c = '\"' then
        match parseStrBody rest with
        | some (s, r) => some (.str (String.mk s), r)
        | none => none
      else if c = 't' then
        if rest.take 3 = ['r', 'u', 'e'] then some (.bool true, rest.drop 3) else none
      else if c = 'f' then
        if rest.take 4 = ['a', 'l', 's', 'e'] then some (.bool false, rest.drop 4) else none
      else if c = 'n' then
        if rest.take 3 = ['u', 'l', 'l'] then some (.null, rest.drop 3) else none
      else
        match parseNumber (c :: rest) with
        | some (q, r) => some (.num q, r)
        | none => none

def parseObjTail : Nat → List Char → Option (JValue × List Char)
  | 0, _ => none
  | f + 1, cs =>
    match skipWs cs with
    | [] => none
    | c :: rest =>
      if c = rbrace then some (.obj [], rest)
      else
        match parseMembers f (c :: rest) with
        | some (fs, r) =>
          match skipWs r with
          | c2 :: r2 => if c2 = rbrace then some (.obj fs, r2) else none
          | [] => none
        | none => none

def parseMembers : Nat → List Char → Option (List (String × JValue) × List Char)
  | 0, _ => none
  | f + 1, cs =>
    match skipWs cs with
    | c :: rest =>
      if c = '\"' then
        match parseStrBody rest with
        | some (kchars, r) =>
          match skipWs r with
          | ':' :: r2 =>
            match parseV f r2 with
            | some (v, r3) =>
              match skipWs r3 with
              | ',' :: r4 =>
                match parseMembers f r4 with
                | some (fs, r5) => some ((String.mk kchars, v) :: fs, r5)
                | none => none
              | r4 => some ([(String.mk kchars, v)], r4)
            | none => none
          | _ => none
        | none => none
      else none
    | [] => none

def parseArrTail : Nat → List Char → Option (JValue × List Char)
  | 0, _ => none
  | f + 1, cs =>
    match skipWs cs with
    | [] => none
    | c :: rest =>
      if c = ']' then some (.arr [], rest)
      else
        match parseElems f (c :: rest) with
        | some (es, r) =>
          match skipWs r with
          | c2 :: r2 => if c2 = ']' then some (.arr es, r2) else none
          | [] => none
        | none => none

def parseElems : Nat → List Char → Option (List JValue × List Char)
  | 0, _ => none
  | f + 1, cs =>
    match parseV f cs with
    | some (v, r) =>
      match skipWs r with
      | ',' :: r2 =>
        match parseElems f r2 with
        | some (es, r3) => some (v :: es, r3)
        | none => none
      | r2 => some ([v], r2)
    | none => none

end

/-- `json.loads`: parse one JSON value and reject trailing non-whitespace. -/
def json_loads (s : String) : Option JValue :=
  match parseV (s.length + 2) s.toList with
  | some (v, rest) => if skipWs rest = [] then some v else none
  | none => none

theorem json_loads_bare_number : json_loads "5" = some (.num 5) := rfl

theorem json_loads_array : json_loads "[1,2]" = some (.arr [.num 1, .num 2]) := rfl

theorem json_loads_truncated_object : json_loads "\x7bbad" = none := rfl

theorem json_loads_object :
    json_loads "\x7b\"DC\": 1\x7d" = some (.obj [("DC", .num 1)]) := rfl

theorem json_loads_decimals :
    (json_loads "\x7b\"DC\": 3.3, \"Amp\": 0.5\x7d").isSome = true := rfl

/-! ### Connection Manager: embedding of `tcp_server_thread` (Server.py lines 30-91)

The thread is an accept loop: store the accepted socket in
`stm32_client_socket`, set and broadcast a connected status, then run a
receive loop until `recv` returns empty bytes or raises; afterwards close
the connection (`with conn`), clear `stm32_client_socket`, set and
broadcast the disconnected status, and accept again.  We embed it as a
pure function from the bind outcome and a finite list of accepted
sessions (each with the outcomes of its successive `recv` calls) to the
final `latest_data`, the final `stm32_client_socket`, and a trace of
events: one event per store mutation, broadcast, log line, and
connection action, in program order. -/

/-- Argument classification for `latest_data.update(received_json)` when
`received_json` is not a JSON object.  `dict.update` accepts an iterable
of key/value pairs, so a JSON array whose elements are all two-element
arrays with string keys updates the dict; every other non-object value
raises `TypeError`/`ValueError` (modelled as `none`).  Not modelled:
two-character strings as pair elements, non-string keys, and partial
updates when a later element of a mixed list raises. -/
def pairsOf : List JValue → Option (List (String × JValue))
  | [] => some []
  | .arr [.str k, v] :: rest =>
    match pairsOf rest with
    | some ps => some ((k, v) :: ps)
    | none => none
  | _ => none

def updateArg : JValue → Option (List (String × JValue))
  | .obj fs => some fs
  | .arr elems => pairsOf elems
  | .str s => if s = "" then some [] else none
  | _ => none

/-- The outcome of one `conn.recv(1024).decode('utf-8')` call as seen by
the receive loop: a decoded chunk (empty string = peer closed), a
`ConnectionResetError`, or any other receive/decode exception. -/
inductive RecvEvent where
  | chunk (s : String)
  | connReset
  | recvErr

/-- Observable events of the thread, in program order.  `statusSet` is an
assignment `latest_data["status"] = s`; `fieldMerge` is a
`latest_data.update(...)` call; `publish` is a
`socketio.emit('update_data', latest_data)` carrying the current store;
`accept` stores the accepted socket; `closeConn` is the `with conn` exit;
`clearSock` is `stm32_client_socket = None`. -/
inductive Ev where
  | accept (ip : String)
  | closeConn
  | clearSock
  | fieldMerge (pairs : List (String × JValue))
  | statusSet (s : String)
  | publish (snap : Store)
  | logParseErr (raw : String)
  | logCommErr

/-- One iteration of the inner receive loop (Server.py lines 55-85).
Returns the new store, the events of this iteration, and whether the loop
breaks.  A chunk that fails `json.loads` is logged and skipped
(`except json.JSONDecodeError`); a chunk whose parse is not a usable
`dict.update` argument raises out of the inner `try` into the generic
`except Exception`, which logs and breaks. -/
def recvStep (d : Store) (e : RecvEvent) : Store × List Ev × Bool :=
  match e with
  | .connReset => (d, [], true)
  | .recvErr => (d, [.logCommErr], true)
  | .chunk s =>
    if s = "" then (d, [], true)
    else
      let js := pyStrip s
      match json_loads js with
      | none => (d, [.logParseErr js], false)
      | some v =>
        match updateArg v with
        | some pairs =>
          let d1 := setStatus (dictUpdate d pairs) statusReceiving
          (d1, [.fieldMerge pairs, .statusSet statusReceiving, .publish d1], false)
        | none => (d, [.logCommErr], true)

/-- The receive loop over a finite list of recv outcomes.  The final
`Bool` records whether the loop broke; if the list is exhausted without a
break the real loop would still be blocked in `recv`. -/
def runRecv (d : Store) : List RecvEvent → Store × List Ev × Bool
  | [] => (d, [], false)
  | e :: es =>
    let r := recvStep d e
    if r.2.2 then r
    else
      let rr := runRecv r.1 es
      (rr.1, r.2.1 ++ rr.2.1, rr.2.2)

/-- One accepted device connection: the peer address and the outcomes of
the successive `recv` calls on it. -/
structure Session where
  ip : String
  events : List RecvEvent

/-- The accept loop (Server.py lines 47-91) over a finite list of
accepted sessions.  Returns the final store, the final
`stm32_client_socket` (the address of the still-open session, if any),
and the event trace.  A session whose recv outcomes end without a break
leaves the loop blocked in `recv`, so later sessions are never accepted. -/
def runSessions (d : Store) : List Session → Store × Option String × List Ev
  | [] => (d, none, [])
  | sess :: rest =>
    let d1 := setStatus d (statusConnected sess.ip)
    let t0 := [Ev.accept sess.ip, Ev.statusSet (statusConnected sess.ip), Ev.publish d1]
    let r := runRecv d1 sess.events
    if r.2.2 then
      let d3 := setStatus r.1 statusDisconnected
      let t2 := [Ev.closeConn, Ev.clearSock, Ev.statusSet statusDisconnected, Ev.publish d3]
      let rr := runSessions d3 rest
      (rr.1, rr.2.1, t0 ++ r.2.1 ++ t2 ++ rr.2.2)
    else (r.1, some sess.ip, t0 ++ r.2.1)

/-- The outcome of `s.bind(...); s.listen(1)` (Server.py lines 36-37). -/
inductive BindResult where
  | ok
  | fail (reason : String)

/-- `tcp_server_thread` (Server.py lines 30-91): on bind success, set and
broadcast the waiting status then run the accept loop; on bind failure,
set and broadcast the startup-failure status and return. -/
def tcp_server_thread (b : BindResult) (sessions : List Session) :
    Store × Option String × List Ev :=
  match b with
  | .fail reason =>
    let d1 := setStatus initial_latest_data (statusBindFail reason)
    (d1, none, [Ev.statusSet (statusBindFail reason), Ev.publish d1])
  | .ok =>
    let d1 := setStatus initial_latest_data statusWaiting
    let r := runSessions d1 sessions
    (r.1, r.2.1, [Ev.statusSet statusWaiting, Ev.publish d1] ++ r.2.2)

/-- Mutation events of the Telemetry Store: status assignments and field
merges (the two mutation kinds the spec's broadcast claim enumerates). -/
def isMutation : Ev → Bool
  | .statusSet _ => true
  | .fieldMerge _ => true
  | _ => false

def isPublish : Ev → Bool
  | .publish _ => true
  | _ => false

def countMutations (t : List Ev) : Nat := (t.filter isMutation).length

def countPublishes (t : List Ev) : Nat := (t.filter isPublish).length

/-! ### Command Dispatcher: embedding of `send_command` (Server.py lines 100-142) -/

/-- Python `int()` truncation toward zero of a rational (covers `int` and
`float` arguments). -/
def pyTrunc (q : Rat) : Int :=
  if 0 ≤ q.num then Int.ofNat (q.num.toNat / q.den)
  else - Int.ofNat ((- q.num).toNat / q.den)

def pyIntDigits (ds : List Char) : Option Int :=
  if ds = [] then none
  else if ds.all Char.isDigit then some (Int.ofNat (digitsVal ds)) else none

/-- Python `int()` on a string: optional surrounding whitespace, optional
sign, decimal digits; anything else raises (modelled as `none`;
digit-group underscores and non-ASCII digits are not modelled). -/
def pyIntOfStr (s : String) : Option Int :=
  match (skipWs (skipWs s.toList).reverse).reverse with
  | '-' :: ds =>
    match pyIntDigits ds with
    | some n => some (-n)
    | none => none
  | '+' :: ds => pyIntDigits ds
  | ds => pyIntDigits ds

/-- Python `int(x)` for a JSON-decoded `x`: numbers truncate toward zero,
strings parse as decimal integers, booleans give 0/1, and `None`, lists
and dicts raise `TypeError` (modelled as `none`). -/
def pyInt : JValue → Option Int
  | .num q => some (pyTrunc q)
  | .str s => pyIntOfStr s
  | .bool b => some (if b then 1 else 0)
  | _ => none

/-- `json.dumps({"cmd": "config", "rate": r, "cycles": c})` with Python's
default separators and insertion-ordered keys (Server.py lines 115-119). -/
def command_data (r c : Int) : String :=
  "\x7b\"cmd\": \"config\", \"rate\": " ++ toString r ++
    ", \"cycles\": " ++ toString c ++ "\x7d"

/-- Outcome of the `/send_command` handler: the 400 not-connected error,
an uncaught exception from `int()` (surfaced by the framework as a server
error, with nothing written), a successful `sendall` (HTTP 200), or a
raising `sendall` (HTTP 500, bytes were attempted). -/
inductive SendResult where
  | notConnected
  | typeErr
  | ok (written : String)
  | sendFail (attempted : String)
deriving DecidableEq

/-- The bytes the handler handed to `stm32_client_socket.sendall`, if any. -/
def attemptedWrite : SendResult → Option String
  | .ok s => some s
  | .sendFail s => some s
  | _ => none

/-- `send_command` (Server.py lines 100-142).  `sock` is
`stm32_client_socket`, `body` the parsed request JSON object, `writeOk`
whether `sendall` succeeds.  The handler never mutates `latest_data` or
`stm32_client_socket`, so no state is returned. -/
def send_command (sock : Option String) (body : List (String × JValue))
    (writeOk : Bool) : SendResult :=
  match sock with
  | none => .notConnected
  | some _ =>
    let rate := (body.lookup "rate").getD (JValue.num 0)
    let cycles := (body.lookup "cycles").getD (JValue.num 0)
    match pyInt rate, pyInt cycles with
    | some r, some c =>
      if writeOk then .ok (command_data r c) else .sendFail (command_data r c)
    | _, _ => .typeErr

/-- C4: with no active Device Session (`stm32_client_socket is None`) the
handler always returns the not-connected client error, hands nothing to
the transport, and (being read-only on the globals) leaves the
device-facing state unchanged. -/
theorem c4_no_session_not_connected (body : List (String × JValue)) (writeOk : Bool) :
    send_command none body writeOk = SendResult.notConnected ∧
    attemptedWrite (send_command none body writeOk) = none :=
  ⟨rfl, rfl⟩

/-- C5: with an active session, the request `{rate: 10, cycles: 5}` makes
the handler write exactly the UTF-8 JSON bytes
`{"cmd": "config", "rate": 10, "cycles": 5}`, which decode to the object
`{"cmd":"config","rate":10,"cycles":5}`. -/
theorem c5_command_roundtrip :
    send_command (some "192.168.1.20") [("rate", JValue.num 10), ("cycles", JValue.num 5)]
      true = SendResult.ok (command_data 10 5) ∧
    command_data 10 5 = "\x7b\"cmd\": \"config\", \"rate\": 10, \"cycles\": 5\x7d" ∧
    json_loads (command_data 10 5) =
      some (.obj [("cmd", .str "config"), ("rate", .num 10), ("cycles", .num 5)]) :=
  ⟨rfl, rfl, rfl⟩

/-- C2 counterexample: the handler does not validate presence or
non-negativity.  With an active session, a request with no `rate`/`cycles`
keys is not rejected: both default to `0` and the command is written to
the device; likewise a negative `rate` of `-3` is serialized and sent. -/
theorem c2_counterexample :
    send_command (some "192.168.4.2") [] true = SendResult.ok (command_data 0 0) ∧
    attemptedWrite (send_command (some "192.168.4.2") [] true) = some (command_data 0 0) ∧
    send_command (some "192.168.4.2")
      [("rate", JValue.num (-3)), ("cycles", JValue.num 4)] true =
      SendResult.ok (command_data (-3) 4) :=
  ⟨rfl, rfl, rfl⟩

/-- C2 as amended: the handler performs no presence or sign validation.
Whenever both `int()` coercions succeed (absent keys defaulting to `0`,
negative values passing through), the command is written to the device;
only a value `int()` cannot coerce raises out of the handler, producing a
framework server error with nothing written — there is no `Rejected`
outcome. -/
theorem c2_amended_no_validation (ip : String) (body : List (String × JValue))
    (writeOk : Bool) (r c : Int) :
    (pyInt ((body.lookup "rate").getD (JValue.num 0)) = some r →
      pyInt ((body.lookup "cycles").getD (JValue.num 0)) = some c →
      send_command (some ip) body writeOk =
        if writeOk then SendResult.ok (command_data r c)
        else SendResult.sendFail (command_data r c)) ∧
    ((pyInt ((body.lookup "rate").getD (JValue.num 0)) = none ∨
      pyInt ((body.lookup "cycles").getD (JValue.num 0)) = none) →
      send_command (some ip) body writeOk = SendResult.typeErr ∧
      attemptedWrite (send_command (some ip) body writeOk) = none) := by
  have hred : send_command (some ip) body writeOk =
      match pyInt ((body.lookup "rate").getD (JValue.num 0)),
            pyInt ((body.lookup "cycles").getD (JValue.num 0)) with
      | some r, some c =>
        if writeOk then SendResult.ok (command_data r c)
        else SendResult.sendFail (command_data r c)
      | _, _ => SendResult.typeErr := rfl
  constructor
  · intro hr hc
    rw [hred, hr, hc]
  · intro h
    have htyp : send_command (some ip) body writeOk = SendResult.typeErr := by
      rw [hred]
      rcases h with h | h
      · rw [h]
      · rw [h]
        cases pyInt ((body.lookup "rate").getD (JValue.num 0)) <;> rfl
    exact ⟨htyp, by rw [htyp]; rfl⟩

/-- Witness for `c2_amended_no_validation`: a string `rate` of `"abc"`
cannot be coerced, so the handler raises and writes nothing. -/
theorem c2_amended_no_validation_witness :
    (pyInt (((([("rate", JValue.str "abc")] : List (String × JValue)).lookup "rate").getD
        (JValue.num 0))) = none ∨
      pyInt ((([("rate", JValue.str "abc")] : List (String × JValue)).lookup "cycles").getD
        (JValue.num 0)) = none) ∧
    send_command (some "192.168.4.2") [("rate", JValue.str "abc")] true =
      SendResult.typeErr :=
  ⟨Or.inl rfl,
    ((c2_amended_no_validation "192.168.4.2" [("rate", JValue.str "abc")] true 0 0).2
      (Or.inl rfl)).1⟩

/-! ### Receive-loop and accept-loop claims -/

/-- C6: a chunk of device bytes `{bad` fails `json.loads`, so the receive
iteration leaves the store unchanged, publishes nothing, only logs the
parse error, and does not break the loop; consequently the receive loop
simply continues with the remaining reads and the session stays open. -/
theorem c6_malformed_frame_is_recoverable (d : Store) (es : List RecvEvent) :
    recvStep d (.chunk "\x7bbad") = (d, [Ev.logParseErr "\x7bbad"], false) ∧
    runRecv d (RecvEvent.chunk "\x7bbad" :: es) =
      ((runRecv d es).1, Ev.logParseErr "\x7bbad" :: (runRecv d es).2.1,
        (runRecv d es).2.2) := by
  have h1 : recvStep d (.chunk "\x7bbad") = (d, [Ev.logParseErr "\x7bbad"], false) := rfl
  refine ⟨h1, ?_⟩
  show (let r := recvStep d (.chunk "\x7bbad")
    if r.2.2 then r
    else
      let rr := runRecv r.1 es
      (rr.1, r.2.1 ++ rr.2.1, rr.2.2)) = _
  rw [h1]
  simp

/-- Splitting a receive-loop run at a list append: the second part only
runs if the first did not break. -/
theorem runRecv_cons (d : Store) (e : RecvEvent) (es : List RecvEvent) :
    runRecv d (e :: es) =
      if (recvStep d e).2.2 then recvStep d e
      else ((runRecv (recvStep d e).1 es).1,
        (recvStep d e).2.1 ++ (runRecv (recvStep d e).1 es).2.1,
        (runRecv (recvStep d e).1 es).2.2) := rfl

theorem runRecv_append (d : Store) (es1 es2 : List RecvEvent) :
    runRecv d (es1 ++ es2) =
      if (runRecv d es1).2.2 then runRecv d es1
      else ((runRecv (runRecv d es1).1 es2).1,
        (runRecv d es1).2.1 ++ (runRecv (runRecv d es1).1 es2).2.1,
        (runRecv (runRecv d es1).1 es2).2.2) := by
  induction es1 generalizing d with
  | nil => simp [runRecv]
  | cons e es ih =>
    rw [List.cons_append, runRecv_cons, runRecv_cons d e es]
    rcases hs : recvStep d e with ⟨d1, t1, brk1⟩
    cases brk1 with
    | true => simp
    | false =>
      simp only [Bool.false_eq_true, if_false]
      rw [ih]
      rcases h1 : runRecv d1 es with ⟨d2, t2, brk2⟩
      cases brk2 with
      | true => simp
      | false => simp [List.append_assoc]

theorem runSessions_cons (d : Store) (sess : Session) (rest : List Session) :
    runSessions d (sess :: rest) =
      if (runRecv (setStatus d (statusConnected sess.ip)) sess.events).2.2 then
        ((runSessions (setStatus
            (runRecv (setStatus d (statusConnected sess.ip)) sess.events).1
            statusDisconnected) rest).1,
         (runSessions (setStatus
            (runRecv (setStatus d (statusConnected sess.ip)) sess.events).1
            statusDisconnected) rest).2.1,
         [Ev.accept sess.ip, Ev.statusSet (statusConnected sess.ip),
          Ev.publish (setStatus d (statusConnected sess.ip))] ++
           (runRecv (setStatus d (statusConnected sess.ip)) sess.events).2.1 ++
           [Ev.closeConn, Ev.clearSock, Ev.statusSet statusDisconnected,
            Ev.publish (setStatus
              (runRecv (setStatus d (statusConnected sess.ip)) sess.events).1
              statusDisconnected)] ++
           (runSessions (setStatus
              (runRecv (setStatus d (statusConnected sess.ip)) sess.events).1
              statusDisconnected) rest).2.2)
      else ((runRecv (setStatus d (statusConnected sess.ip)) sess.events).1,
        some sess.ip,
        [Ev.accept sess.ip, Ev.statusSet (statusConnected sess.ip),
         Ev.publish (setStatus d (statusConnected sess.ip))] ++
          (runRecv (setStatus d (statusConnected sess.ip)) sess.events).2.1) := rfl

/-- C7: when a read on the active session returns zero bytes (an empty
chunk after any number of non-breaking reads), the receive loop breaks;
the manager then closes the transport, clears `stm32_client_socket`, sets
the status to the disconnected status, publishes exactly one broadcast
for that transition, and the accept loop proceeds with the next inbound
connection. -/
theorem c7_zero_read_closes_session (d : Store) (ip : String) (pre : List RecvEvent)
    (rest : List Session) (d2 : Store) (t1 : List Ev)
    (hpre : runRecv (setStatus d (statusConnected ip)) pre = (d2, t1, false)) :
    runSessions d (⟨ip, pre ++ [RecvEvent.chunk ""]⟩ :: rest) =
      ((runSessions (setStatus d2 statusDisconnected) rest).1,
       (runSessions (setStatus d2 statusDisconnected) rest).2.1,
       [Ev.accept ip, Ev.statusSet (statusConnected ip),
        Ev.publish (setStatus d (statusConnected ip))] ++ t1 ++
       [Ev.closeConn, Ev.clearSock, Ev.statusSet statusDisconnected,
        Ev.publish (setStatus d2 statusDisconnected)] ++
       (runSessions (setStatus d2 statusDisconnected) rest).2.2) := by
  have hone : ∀ d0 : Store, runRecv d0 [RecvEvent.chunk ""] = (d0, [], true) :=
    fun d0 => rfl
  have hb : runRecv (setStatus d (statusConnected ip)) (pre ++ [RecvEvent.chunk ""]) =
      (d2, t1, true) := by
    rw [runRecv_append, hpre]
    simp [hone]
  rw [runSessions_cons]
  simp only [hb]
  simp

/-- Witness for `c7_zero_read_closes_session`: a session whose only read
returns zero bytes, starting from the initial store, with no further
sessions. -/
theorem c7_zero_read_closes_session_witness :
    runSessions initial_latest_data [⟨"10.0.0.8", [RecvEvent.chunk ""]⟩] =
      (setStatus (setStatus initial_latest_data (statusConnected "10.0.0.8"))
        statusDisconnected, none,
       [Ev.accept "10.0.0.8", Ev.statusSet (statusConnected "10.0.0.8"),
        Ev.publish (setStatus initial_latest_data (statusConnected "10.0.0.8")),
        Ev.closeConn, Ev.clearSock, Ev.statusSet statusDisconnected,
        Ev.publish (setStatus (setStatus initial_latest_data
          (statusConnected "10.0.0.8")) statusDisconnected)]) :=
  (c7_zero_read_closes_session initial_latest_data "10.0.0.8" [] [] _ _ rfl).trans
    (by simp [runSessions])

/-- C8: if binding the device-facing listener fails, the thread sets the
status to the startup-failure status carrying the reason, publishes
exactly one broadcast, accepts nothing (the result does not depend on any
would-be sessions and the trace holds no `accept`), keeps
`stm32_client_socket = None`, and leaves every non-status key unchanged. -/
theorem c8_bind_failure_fatal (reason : String) (sessions : List Session) :
    tcp_server_thread (.fail reason) sessions =
      (setStatus initial_latest_data (statusBindFail reason), none,
       [Ev.statusSet (statusBindFail reason),
        Ev.publish (setStatus initial_latest_data (statusBindFail reason))]) ∧
    countPublishes (tcp_server_thread (.fail reason) sessions).2.2 = 1 ∧
    ∀ k, k ≠ "status" →
      (tcp_server_thread (.fail reason) sessions).1 k = initial_latest_data k := by
  refine ⟨rfl, rfl, ?_⟩
  intro k hk
  show setStatus initial_latest_data (statusBindFail reason) k = _
  unfold setStatus
  rw [if_neg hk]

/-- Witness for `c8_bind_failure_fatal`: after a failed bind the `"DC"`
field still holds its initial value. -/
theorem c8_bind_failure_fatal_witness :
    ("DC" ≠ "status") ∧
    (tcp_server_thread (.fail "Address already in use") []).1 "DC" =
      initial_latest_data "DC" :=
  ⟨by decide,
    (c8_bind_failure_fatal "Address already in use" []).2.2 "DC" (by decide)⟩

/-- C10: a chunk that is valid JSON but not an object — `5` or `[1,2]` —
is not handled as a recoverable malformed frame: `json.loads` succeeds,
`latest_data.update` raises a `TypeError` that only the receive loop's
generic `except Exception` catches, so the iteration logs the
communication error and breaks, and the session is torn down with the
status set to the disconnected status (rather than staying open as for a
parse failure). -/
theorem c10_nonobject_json_breaks_session (d : Store) (ip : String) :
    recvStep d (.chunk "5") = (d, [Ev.logCommErr], true) ∧
    recvStep d (.chunk "[1,2]") = (d, [Ev.logCommErr], true) ∧
    runSessions d [⟨ip, [RecvEvent.chunk "5"]⟩] =
      (setStatus (setStatus d (statusConnected ip)) statusDisconnected, none,
       [Ev.accept ip, Ev.statusSet (statusConnected ip),
        Ev.publish (setStatus d (statusConnected ip)), Ev.logCommErr, Ev.closeConn,
        Ev.clearSock, Ev.statusSet statusDisconnected,
        Ev.publish (setStatus (setStatus d (statusConnected ip))
          statusDisconnected)]) ∧
    runSessions d [⟨ip, [RecvEvent.chunk "[1,2]"]⟩] =
      (setStatus (setStatus d (statusConnected ip)) statusDisconnected, none,
       [Ev.accept ip, Ev.statusSet (statusConnected ip),
        Ev.publish (setStatus d (statusConnected ip)), Ev.logCommErr, Ev.closeConn,
        Ev.clearSock, Ev.statusSet statusDisconnected,
        Ev.publish (setStatus (setStatus d (statusConnected ip))
          statusDisconnected)]) ∧
    (setStatus (setStatus d (statusConnected ip)) statusDisconnected) "status" =
      some (JValue.str statusDisconnected) :=
  ⟨rfl, rfl, rfl, rfl, rfl⟩

/-! ### C3: broadcasts per mutation -/

/-- C3 counterexample: a run with one session delivering one valid frame
and then a zero-byte read performs five store mutations (four status
assignments — after bind, on accept, on merge, on teardown — plus one
field merge) but only four broadcasts: the frame path (Server.py lines
72-76) mutates the store twice (`update` then the status assignment) and
publishes once, so it is false that every mutation triggers exactly one
publish. -/
theorem c3_counterexample :
    countMutations (tcp_server_thread .ok
      [⟨"1.2.3.4", [RecvEvent.chunk "\x7b\"DC\": 1\x7d", RecvEvent.chunk ""]⟩]).2.2 = 5 ∧
    countPublishes (tcp_server_thread .ok
      [⟨"1.2.3.4", [RecvEvent.chunk "\x7b\"DC\": 1\x7d", RecvEvent.chunk ""]⟩]).2.2 = 4 ∧
    countMutations (tcp_server_thread .ok
      [⟨"1.2.3.4", [RecvEvent.chunk "\x7b\"DC\": 1\x7d", RecvEvent.chunk ""]⟩]).2.2 ≠
    countPublishes (tcp_server_thread .ok
      [⟨"1.2.3.4", [RecvEvent.chunk "\x7b\"DC\": 1\x7d", RecvEvent.chunk ""]⟩]).2.2 := by
  have h1 : countMutations (tcp_server_thread .ok
      [⟨"1.2.3.4", [RecvEvent.chunk "\x7b\"DC\": 1\x7d", RecvEvent.chunk ""]⟩]).2.2 = 5 := rfl
  have h2 : countPublishes (tcp_server_thread .ok
      [⟨"1.2.3.4", [RecvEvent.chunk "\x7b\"DC\": 1\x7d", RecvEvent.chunk ""]⟩]).2.2 = 4 := rfl
  refine ⟨h1, h2, ?_⟩
  rw [h1, h2]
  decide

/-- Events that neither mutate the store nor publish. -/
def benignEv : Ev → Bool
  | .accept _ => true
  | .closeConn => true
  | .clearSock => true
  | .logParseErr _ => true
  | .logCommErr => true
  | _ => false

/-- A well-published trace from store `d` to store `dEnd`: every status
assignment is immediately followed by exactly one publish carrying the
post-assignment snapshot; every field merge is immediately followed by
the receiving-status assignment whose single publish covers both
mutations; publishes occur nowhere else; all other events leave the store
alone.  This is the trace shape the thread actually guarantees. -/
inductive GoodTrace : Store → List Ev → Store → Prop where
  | nil (d : Store) : GoodTrace d [] d
  | mergeBlock (d : Store) (ps : List (String × JValue)) (t : List Ev) (dEnd : Store)
      (h : GoodTrace (setStatus (dictUpdate d ps) statusReceiving) t dEnd) :
      GoodTrace d (Ev.fieldMerge ps :: Ev.statusSet statusReceiving ::
        Ev.publish (setStatus (dictUpdate d ps) statusReceiving) :: t) dEnd
  | statusBlock (d : Store) (s : String) (t : List Ev) (dEnd : Store)
      (h : GoodTrace (setStatus d s) t dEnd) :
      GoodTrace d (Ev.statusSet s :: Ev.publish (setStatus d s) :: t) dEnd
  | skip (d : Store) (e : Ev) (t : List Ev) (dEnd : Store)
      (hb : benignEv e = true) (h : GoodTrace d t dEnd) :
      GoodTrace d (e :: t) dEnd

theorem goodTrace_append {d dMid dEnd : Store} {t1 t2 : List Ev}
    (h1 : GoodTrace d t1 dMid) (h2 : GoodTrace dMid t2 dEnd) :
    GoodTrace d (t1 ++ t2) dEnd := by
  revert h2
  induction h1 with
  | nil d0 => intro h2; exact h2
  | mergeBlock d0 ps t dE h ih =>
    intro h2
    exact GoodTrace.mergeBlock _ _ _ _ (ih h2)
  | statusBlock d0 s t dE h ih =>
    intro h2
    exact GoodTrace.statusBlock _ _ _ _ (ih h2)
  | skip d0 e t dE hb h ih =>
    intro h2
    exact GoodTrace.skip _ _ _ _ hb (ih h2)

theorem goodRecvStep (d : Store) (e : RecvEvent) :
    GoodTrace d (recvStep d e).2.1 (recvStep d e).1 := by
  cases e with
  | connReset => exact GoodTrace.nil d
  | recvErr => exact GoodTrace.skip _ _ _ _ rfl (GoodTrace.nil d)
  | chunk s =>
    unfold recvStep
    by_cases hs : s = ""
    · simp only [hs, if_pos]
      exact GoodTrace.nil d
    · simp only [if_neg hs]
      cases hj : json_loads (pyStrip s) with
      | none =>
        exact GoodTrace.skip d (Ev.logParseErr (pyStrip s)) [] d rfl (GoodTrace.nil d)
      | some v =>
        dsimp only
        cases hu : updateArg v with
        | some ps =>
          dsimp only
          exact GoodTrace.mergeBlock d ps [] _ (GoodTrace.nil _)
        | none =>
          dsimp only
          exact GoodTrace.skip d Ev.logCommErr [] d rfl (GoodTrace.nil d)

theorem goodRunRecv (es : List RecvEvent) (d : Store) :
    GoodTrace d (runRecv d es).2.1 (runRecv d es).1 := by
  induction es generalizing d with
  | nil => exact GoodTrace.nil d
  | cons e es ih =>
    rw [runRecv_cons]
    have hstep := goodRecvStep d e
    rcases hs : recvStep d e with ⟨d1, t1, brk⟩
    rw [hs] at hstep
    cases brk with
    | true => simpa using hstep
    | false =>
      simp only [Bool.false_eq_true, if_false]
      exact goodTrace_append hstep (ih d1)

theorem goodRunSessions (ss : List Session) (d : Store) :
    GoodTrace d (runSessions d ss).2.2 (runSessions d ss).1 := by
  induction ss generalizing d with
  | nil => exact GoodTrace.nil d
  | cons sess rest ih =>
    rw [runSessions_cons]
    have hrec := goodRunRecv sess.events (setStatus d (statusConnected sess.ip))
    rcases hr : runRecv (setStatus d (statusConnected sess.ip)) sess.events with
      ⟨d2, t1, brk⟩
    rw [hr] at hrec
    cases brk with
    | false =>
      simp only [Bool.false_eq_true, if_false, List.cons_append, List.nil_append]
      exact GoodTrace.skip _ _ _ _ rfl (GoodTrace.statusBlock _ _ _ _ hrec)
    | true =>
      simp only [if_true, List.cons_append, List.nil_append, List.append_assoc]
      refine GoodTrace.skip _ _ _ _ rfl (GoodTrace.statusBlock _ _ _ _ ?_)
      refine goodTrace_append hrec ?_
      simp only [List.cons_append, List.nil_append]
      refine GoodTrace.skip _ _ _ _ rfl (GoodTrace.skip _ _ _ _ rfl
        (GoodTrace.statusBlock _ _ _ _ ?_))
      exact ih (setStatus d2 statusDisconnected)

/-- C3 as amended: in every run of the thread, each status assignment is
immediately followed by exactly one broadcast carrying the snapshot it
produced, broadcasts happen nowhere else and in mutation order, and a
field merge does not get its own broadcast — it is immediately followed
by the receiving-status assignment, whose single broadcast covers both
mutations. -/
theorem c3_amended_one_publish_per_status_transition (b : BindResult)
    (ss : List Session) :
    GoodTrace initial_latest_data (tcp_server_thread b ss).2.2
      (tcp_server_thread b ss).1 := by
  cases b with
  | fail reason =>
    exact GoodTrace.statusBlock _ _ _ _ (GoodTrace.nil _)
  | ok =>
    have h := goodRunSessions ss (setStatus initial_latest_data statusWaiting)
    simpa using GoodTrace.statusBlock initial_latest_data statusWaiting _ _ h

/-! ### C9: at most one Device Session -/

/-- Events that are neither an accept nor a transport close. -/
def noConnEv : Ev → Bool
  | .accept _ => false
  | .closeConn => false
  | _ => true

inductive Phase where
  | idle
  | inSession

/-- Trace automaton for the single-session discipline: from `idle` an
accept opens a session; while a session is open a second accept is a
violation, and the only way back to `idle` is the full teardown sequence
— transport close, session handle cleared, status set to the
disconnected status (the broadcast and any further events follow in the
`idle` phase). -/
def invCheck : Phase → List Ev → Bool
  | _, [] => true
  | .idle, Ev.accept _ :: t => invCheck .inSession t
  | .idle, _ :: t => invCheck .idle t
  | .inSession, Ev.accept _ :: _ => false
  | .inSession, Ev.closeConn :: Ev.clearSock :: Ev.statusSet s :: t =>
    if s = statusDisconnected then invCheck .idle t else false
  | .inSession, Ev.closeConn :: _ => false
  | .inSession, _ :: t => invCheck .inSession t

theorem invCheck_inSession_noConn (t1 : List Ev) (h : t1.all noConnEv = true)
    (t2 : List Ev) :
    invCheck .inSession (t1 ++ t2) = invCheck .inSession t2 := by
  induction t1 with
  | nil => rfl
  | cons e t ih =>
    simp only [List.all_cons, Bool.and_eq_true] at h
    obtain ⟨he, ht⟩ := h
    cases e with
    | accept ip => simp [noConnEv] at he
    | closeConn => simp [noConnEv] at he
    | clearSock => exact ih ht
    | fieldMerge ps => exact ih ht
    | statusSet s => exact ih ht
    | publish snap => exact ih ht
    | logParseErr r => exact ih ht
    | logCommErr => exact ih ht

theorem recvStep_trace_noConn (d : Store) (e : RecvEvent) :
    ((recvStep d e).2.1).all noConnEv = true := by
  cases e with
  | connReset => rfl
  | recvErr => rfl
  | chunk s =>
    unfold recvStep
    by_cases hs : s = ""
    · simp [hs]
    · simp only [if_neg hs]
      cases json_loads (pyStrip s) with
      | none => rfl
      | some v =>
        dsimp only
        cases updateArg v with
        | some ps => rfl
        | none => rfl

theorem runRecv_trace_noConn (es : List RecvEvent) (d : Store) :
    ((runRecv d es).2.1).all noConnEv = true := by
  induction es generalizing d with
  | nil => rfl
  | cons e es ih =>
    rw [runRecv_cons]
    have ht := recvStep_trace_noConn d e
    rcases hs : recvStep d e with ⟨d1, t1, brk⟩
    rw [hs] at ht
    cases brk with
    | true => simpa using ht
    | false =>
      simp only [Bool.false_eq_true, if_false]
      simp only [List.all_append, Bool.and_eq_true]
      exact ⟨ht, ih d1⟩

theorem runSessions_single_session (ss : List Session) (d : Store) :
    invCheck .idle (runSessions d ss).2.2 = true := by
  induction ss generalizing d with
  | nil => rfl
  | cons sess rest ih =>
    rw [runSessions_cons]
    have ht1 := runRecv_trace_noConn sess.events (setStatus d (statusConnected sess.ip))
    rcases hr : runRecv (setStatus d (statusConnected sess.ip)) sess.events with
      ⟨d2, t1, brk⟩
    rw [hr] at ht1
    cases brk with
    | false =>
      simp only [Bool.false_eq_true, if_false]
      show invCheck Phase.inSession t1 = true
      have h2 := invCheck_inSession_noConn t1 ht1 []
      rw [List.append_nil] at h2
      exact h2
    | true =>
      simp only [if_true, List.append_assoc]
      show invCheck Phase.inSession
        (t1 ++ ([Ev.closeConn, Ev.clearSock, Ev.statusSet statusDisconnected,
          Ev.publish (setStatus d2 statusDisconnected)] ++
          (runSessions (setStatus d2 statusDisconnected) rest).2.2)) = true
      rw [invCheck_inSession_noConn t1 ht1]
      show invCheck Phase.idle (runSessions (setStatus d2 statusDisconnected) rest).2.2 = true
      exact ih (setStatus d2 statusDisconnected)

/-- C9: in every reachable behaviour of the accept loop, at most one
Device Session exists at any instant: the event trace always satisfies
the single-session automaton, so a second `accept` occurs only after the
prior session's transport close, the clearing of
`stm32_client_socket`, and the disconnected status assignment. -/
theorem c9_at_most_one_session (b : BindResult) (ss : List Session) :
    invCheck .idle (tcp_server_thread b ss).2.2 = true := by
  cases b with
  | fail reason => rfl
  | ok =>
    show invCheck Phase.idle
      (runSessions (setStatus initial_latest_data statusWaiting) ss).2.2 = true
    exact runSessions_single_session ss (setStatus initial_latest_data statusWaiting)
